import Mathlib

/-!
Verification of the `ReadwiseModal` component (src/components/ReadwiseModal.js).

The component is a React function component; we embed it as an explicit state
machine.  The React `useState` hooks become fields of `ModalState`; each event
handler of the source becomes a pure state transformer; the `useEffect` bodies
are modelled as running atomically with the state change that triggers them
(the run-to-completion, single-threaded event-loop model of the component).
Screen coordinates are modelled as integers (all drag arithmetic in the source
is exact subtraction).  `Math.random()` is modelled as an explicit rational
parameter `q` with `0 ≤ q < 1`, and `Math.floor` as the integer floor.
The `requestAnimationFrame` slot (`dragAnimationFrameRef`) is modelled as the
pending scheduled update itself: `some p` means a callback that will set the
position to `p` is scheduled; replacing it models `cancelAnimationFrame`
followed by a fresh `requestAnimationFrame`; firing consumes it.
-/

/-- A screen point / offset, as used for `position` and `dragOffset`. -/
structure Pos where
  x : Int
  y : Int
deriving Repr, DecidableEq

/-- One Readwise highlight as consumed by the component: `text` is required,
`title` and `author` are optional (source lines 265–269). -/
structure HighlightItem where
  text : String
  title : Option String
  author : Option String
deriving Repr, DecidableEq

/-- The `BLOG` configuration values read by the component.  The API key is
`Option String`; the JS truthiness test `!BLOG.READWISE_API_KEY` is also true
for the empty string, see `keyMissing`. -/
structure Config where
  READWISE_ENABLED : Bool
  READWISE_API_KEY : Option String
deriving Repr, DecidableEq

/-- JS truthiness of `!BLOG.READWISE_API_KEY` (line 65): missing when the key
is absent (`undefined`/`null`) or the empty string. -/
def keyMissing (cfg : Config) : Bool :=
  match cfg.READWISE_API_KEY with
  | none => true
  | some k => k.isEmpty

/-- The component's state: one field per `useState` hook, plus
`dragAnimationFrame` for the `dragAnimationFrameRef` ref (lines 11–31). -/
structure ModalState where
  mounted : Bool
  highlights : List HighlightItem
  currentIndex : Nat
  isVisible : Bool
  loading : Bool
  error : Option String
  position : Pos
  isDragging : Bool
  dragOffset : Pos
  dragAnimationFrame : Option Pos
deriving Repr, DecidableEq

/-- The initial values of the hooks (lines 11–31). -/
def initialState : ModalState :=
  { mounted := false
    highlights := []
    currentIndex := 0
    isVisible := true
    loading := true
    error := none
    position := ⟨0, 0⟩
    isDragging := false
    dragOffset := ⟨0, 0⟩
    dragAnimationFrame := none }

/-- A pointer event, with the fields the handlers read (`pointerType`,
`button`, `clientX`, `clientY`). -/
structure PointerEvent where
  pointerType : String
  button : Nat
  clientX : Int
  clientY : Int
deriving Repr, DecidableEq

/-! ### Drag handlers (source lines 135–186) -/

/-- `handlePointerDown` (lines 135–145): rejected for a mouse press with a
non-primary button; on acceptance sets `isDragging` and records the grab
offset `pointer - position`. -/
def handlePointerDown (e : PointerEvent) (s : ModalState) : ModalState :=
  if e.pointerType = "mouse" ∧ e.button ≠ 0 then s
  else
    { s with
      isDragging := true
      dragOffset := ⟨e.clientX - s.position.x, e.clientY - s.position.y⟩ }

/-- `handlePointerMove` (lines 147–160): no-op unless dragging; otherwise
cancels any pending animation frame and schedules a new one that will set
`position := pointer - dragOffset`.  Cancel-then-schedule on the single RAF
slot is the overwrite of `dragAnimationFrame`. -/
def handlePointerMove (e : PointerEvent) (s : ModalState) : ModalState :=
  if s.isDragging = false then s
  else
    { s with
      dragAnimationFrame :=
        some ⟨e.clientX - s.dragOffset.x, e.clientY - s.dragOffset.y⟩ }

/-- `handlePointerUp` (lines 162–164): only sets `isDragging := false`. -/
def handlePointerUp (s : ModalState) : ModalState :=
  { s with isDragging := false }

/-- The `useEffect` on `[isDragging, dragOffset]` (lines 167–186): when not
dragging it removes the global listeners and cancels any pending animation
frame.  (The listener add/remove itself carries no component state.) -/
def dragEffectCleanup (s : ModalState) : ModalState :=
  if s.isDragging then s else { s with dragAnimationFrame := none }

/-- A render-frame boundary: the scheduled RAF callback (lines 155–159) runs,
applying the position computed from the captured event and `dragOffset`; the
slot is then spent. -/
def fireFrame (s : ModalState) : ModalState :=
  match s.dragAnimationFrame with
  | none => s
  | some p => { s with position := p, dragAnimationFrame := none }

/-! ### Reselection (source lines 116–127) -/

/-- `refreshHighlight` (lines 116–127): early-returns when the highlight list
is empty; otherwise picks `Math.floor(Math.random() * length)` as the new
index, the random draw `q ∈ [0,1)` being an explicit parameter. -/
def refreshHighlight (q : ℚ) (s : ModalState) : ModalState :=
  if s.highlights.length = 0 then s
  else
    { s with
      currentIndex := (⌊q * (s.highlights.length : ℚ)⌋).toNat }

/-- The `highlight` binding (line 130): `highlights[currentIndex] || null`.
A JS out-of-bounds index yields `undefined`, hence `null`; elements are
objects, hence truthy, so this is exactly `List.get?`. -/
def highlight (s : ModalState) : Option HighlightItem :=
  s.highlights.get? s.currentIndex

/-! ### Fetch lifecycle (source lines 64–111) -/

instance {ε α : Type} [DecidableEq ε] [DecidableEq α] : DecidableEq (Except ε α) :=
  fun a b =>
    match a, b with
    | .error x, .error y =>
      if h : x = y then .isTrue (by rw [h])
      else .isFalse (by intro hc; cases hc; exact h rfl)
    | .error _, .ok _ => .isFalse (by intro hc; cases hc)
    | .ok _, .error _ => .isFalse (by intro hc; cases hc)
    | .ok x, .ok y =>
      if h : x = y then .isTrue (by rw [h])
      else .isFalse (by intro hc; cases hc; exact h rfl)

/-- The observable outcome of the `fetch` call awaited at line 77: either the
promise rejects (network-level failure, carrying the error's message) or a
response arrives with its `ok` flag, `status`, `content-type` header, and
body: `Except` of a JSON-parse failure message or the `highlights` field
(`none` when the field is absent/falsy, `some l` when it is an array). -/
inductive FetchOutcome where
  | networkError (message : String)
  | response (ok : Bool) (status : Nat) (contentType : Option String)
      (body : Except String (Option (List HighlightItem)))
deriving Repr, DecidableEq

/-- List-of-chars version of `String.startsWith` used by `containsAppJson`. -/
def startsWithChars : List Char → List Char → Bool
  | [], _ => true
  | _ :: _, [] => false
  | p :: ps, c :: cs => (p == c) && startsWithChars ps cs

/-- Substring occurrence over character lists. -/
def containsChars (pat : List Char) : List Char → Bool
  | [] => startsWithChars pat []
  | c :: cs => startsWithChars pat (c :: cs) || containsChars pat cs

/-- `contentType.includes('application/json')` (line 92). -/
def containsAppJson (c : String) : Bool :=
  containsChars "application/json".toList c.toList

/-- The `try`/`throw` chain of `fetchAllHighlights` (lines 87–104) as an
`Except`: each `throw`/guard failure is `.error` with the message the source
builds; success yields the non-empty highlight list. -/
def parseOutcome : FetchOutcome → Except String (List HighlightItem)
  | .networkError msg => .error msg
  | .response ok status ct body =>
    if ok = false then .error ("API 请求失败: " ++ toString status)
    else
      match ct with
      | none => .error "预期接收 JSON 数据，但收到 null"
      | some c =>
        if containsAppJson c = false then
          .error ("预期接收 JSON 数据，但收到 " ++ c)
        else
          match body with
          | .error msg => .error msg
          | .ok none => .error "没有找到任何高亮内容"
          | .ok (some l) =>
            if l.length = 0 then .error "没有找到任何高亮内容" else .ok l

/-- The `catch` + `finally` tail of the fetch (lines 105–110):
`setError(message)` and `setLoading(false)`. -/
def setFailure (msg : String) (s : ModalState) : ModalState :=
  { s with error := some msg, loading := false }

/-- What the resolution of the fetch does to the state (lines 87–110): on the
success path `setHighlights` + `setCurrentIndex(0)`; on every failure path
`setError`; in both cases `finally` runs `setLoading(false)`. -/
def fetchContinuation (out : FetchOutcome) (s : ModalState) : ModalState :=
  match parseOutcome out with
  | .error msg => setFailure msg s
  | .ok l => { s with highlights := l, currentIndex := 0, loading := false }

/-- The side effects an event can emit besides the state change; the only one
we track is issuing the network request of line 77. -/
inductive Effect where
  | networkRequest
deriving Repr, DecidableEq

/-- The synchronous head of `fetchAllHighlights` (lines 64–73): with a missing
key it sets the error and clears `loading` without any request; otherwise it
sets `loading`, clears the error, and issues the request.  The function
consults no in-flight flag — it behaves the same however many requests are
already outstanding. -/
def fetchStart (cfg : Config) (s : ModalState) : ModalState × List Effect :=
  if keyMissing cfg then
    ({ s with error := some "未配置 Readwise API Key", loading := false }, [])
  else
    ({ s with loading := true, error := none }, [Effect.networkRequest])

/-- The mount `useEffect` (lines 49–61): `setMounted(true)`, then, if the
feature is enabled, `fetchAllHighlights()`. -/
def mountEffect (cfg : Config) (s : ModalState) : ModalState × List Effect :=
  if cfg.READWISE_ENABLED then fetchStart cfg { s with mounted := true }
  else ({ s with mounted := true }, [])

/-! ### Events and the render function -/

/-- The discrete events the component reacts to.  `mount` is the first-mount
effect; `fetchResolve` is the awaited fetch settling; `frameFire` is a render
frame boundary; the rest are the user/router events wired in the JSX and the
effects. -/
inductive ModalEvent where
  | mount
  | fetchResolve (out : FetchOutcome)
  | routeChangeStart
  | closeClick
  | reselectClick (q : ℚ)
  | pointerDown (e : PointerEvent)
  | pointerMove (e : PointerEvent)
  | pointerUp
  | frameFire

/-- Processing of one event: each case routes to the source handler it is
wired to.  `pointerUp` also runs the drag effect's not-dragging branch
(cancel pending frame), which React runs in the same run-to-completion
response to `setIsDragging(false)`. -/
def processEvent (cfg : Config) (s : ModalState) :
    ModalEvent → ModalState × List Effect
  | .mount => mountEffect cfg s
  | .fetchResolve out => (fetchContinuation out s, [])
  | .routeChangeStart => ({ s with isVisible := false }, [])
  | .closeClick => ({ s with isVisible := false }, [])
  | .reselectClick q => (refreshHighlight q s, [])
  | .pointerDown e => (handlePointerDown e s, [])
  | .pointerMove e => (handlePointerMove e s, [])
  | .pointerUp => (dragEffectCleanup (handlePointerUp s), [])
  | .frameFire => (fireFrame s, [])

/-- Run a sequence of events (states only). -/
def runEvents (cfg : Config) (s : ModalState) (evs : List ModalEvent) :
    ModalState :=
  evs.foldl (fun t e => (processEvent cfg t e).1) s

/-- What the JSX renders when the guard of line 189 passes. -/
structure RenderView where
  position : Pos
  dragging : Bool
  showSpinner : Bool
  errorText : Option String
  shownHighlight : Option HighlightItem
deriving Repr, DecidableEq

/-- The render function: `null` when unmounted, feature-disabled, or not
visible (lines 189–191); otherwise the overlay, whose highlight block is
rendered only when `!loading && !error && highlight` (line 261). -/
def render (cfg : Config) (s : ModalState) : Option RenderView :=
  if s.mounted = false ∨ cfg.READWISE_ENABLED = false ∨ s.isVisible = false
  then none
  else
    some
      { position := s.position
        dragging := s.isDragging
        showSpinner := s.loading
        errorText := s.error
        shownHighlight :=
          if s.loading = false ∧ s.error = none then highlight s else none }

/-! ### Gesture folds -/

/-- Folding a burst of pointer-move events (one render-frame window: no frame
boundary in between). -/
def gestureFold (moves : List PointerEvent) (s : ModalState) : ModalState :=
  moves.foldl (fun t e => handlePointerMove e t) s

/-! ### Concrete inputs used in scenarios and witnesses -/

/-- A minimal highlight item. -/
def itemA : HighlightItem := ⟨"A", none, none⟩

/-- A second minimal highlight item. -/
def itemB : HighlightItem := ⟨"B", none, none⟩

/-- Feature enabled with a configured key. -/
def cfgX : Config := ⟨true, some "X"⟩

/-- A fully successful response carrying two highlights. -/
def goodOut : FetchOutcome :=
  .response true 200 (some "application/json") (.ok (some [itemA, itemB]))

/-- A fully successful response carrying one highlight. -/
def goodOutA : FetchOutcome :=
  .response true 200 (some "application/json") (.ok (some [itemA]))

/-! ### Teardown model -/

/-- The component state paired with a liveness flag: `alive = false` models a
component instance that has been torn down while its fetch is outstanding. -/
structure MountedWorld where
  alive : Bool
  state : ModalState
deriving Repr, DecidableEq

/-- Resolution of the outstanding fetch exactly as the source writes it: the
continuation of lines 96–110 runs its state updates unconditionally — nothing
in `fetchAllHighlights` consults a liveness token before calling the state
setters. -/
def resolveFetchAsWritten (out : FetchOutcome) (w : MountedWorld) : MountedWorld :=
  { w with state := fetchContinuation out w.state }

/-! ### One-lifetime system semantics

React runs the mount effect (empty dependency array, lines 49–61) once per
component lifetime, and the single fetch it may start settles exactly once.
To reason about the states reachable in one lifetime we pair the component
state with two ghost flags recording these facts; events that cannot occur
(a second mount, a resolution with no fetch outstanding) are modelled as
no-ops, so the guarded trace set contains every real trace. -/

/-- Component state plus ghost scheduling facts of one lifetime. -/
structure SysState where
  comp : ModalState
  mountedOnce : Bool
  inFlight : Bool
deriving Repr, DecidableEq

/-- The pre-mount system state. -/
def sysInit : SysState :=
  { comp := initialState, mountedOnce := false, inFlight := false }

/-- One system step: `mount` fires only the first time and records whether a
request went out; `fetchResolve` lands only while a request is outstanding;
all other events act on the component state as in `processEvent`. -/
def sysStep (cfg : Config) (w : SysState) : ModalEvent → SysState
  | .mount =>
    if w.mountedOnce then w
    else
      { comp := (mountEffect cfg w.comp).1
        mountedOnce := true
        inFlight := !(mountEffect cfg w.comp).2.isEmpty }
  | .fetchResolve out =>
    if w.inFlight then
      { comp := fetchContinuation out w.comp
        mountedOnce := w.mountedOnce
        inFlight := false }
    else w
  | e => { w with comp := (processEvent cfg w.comp e).1 }

/-- Run a sequence of system events from the pre-mount state. -/
def sysRun (cfg : Config) (evs : List ModalEvent) : SysState :=
  evs.foldl (sysStep cfg) sysInit

/-- The lifetime invariant: before the mount effect nothing is in flight and
no highlights exist; while the request is outstanding the list is still empty
and the error cleared (line 72); and a non-empty list only ever coexists with
`loading = false` and `error = none` — i.e. the component is `Ready`. -/
def SysInv (w : SysState) : Prop :=
  (w.mountedOnce = false → w.inFlight = false ∧ w.comp.highlights = []) ∧
  (w.inFlight = true → w.comp.highlights = [] ∧ w.comp.error = none) ∧
  (w.comp.highlights ≠ [] → w.comp.loading = false ∧ w.comp.error = none)

/-! ### Helper lemmas -/

/-- While dragging, `handlePointerMove` is exactly the overwrite of the
pending frame slot. -/
theorem handlePointerMove_of_dragging (e : PointerEvent) (s : ModalState)
    (h : s.isDragging = true) :
    handlePointerMove e s =
      { s with
        dragAnimationFrame :=
          some ⟨e.clientX - s.dragOffset.x, e.clientY - s.dragOffset.y⟩ } := by
  unfold handlePointerMove
  rw [if_neg (by simp [h])]

/-- A pointer-move burst keeps the dragging flag, the applied position and the
anchor offset untouched: only the pending frame slot changes. -/
theorem gestureFold_core (moves : List PointerEvent) (s : ModalState)
    (h : s.isDragging = true) :
    (gestureFold moves s).isDragging = true ∧
    (gestureFold moves s).position = s.position ∧
    (gestureFold moves s).dragOffset = s.dragOffset := by
  induction moves generalizing s with
  | nil => exact ⟨h, rfl, rfl⟩
  | cons m ms ih =>
    have hstep : gestureFold (m :: ms) s = gestureFold ms (handlePointerMove m s) := rfl
    rw [hstep, handlePointerMove_of_dragging m s h]
    exact ih _ h

/-- Appending one more move to a burst post-composes one `handlePointerMove`. -/
theorem gestureFold_append_single (moves : List PointerEvent) (e : PointerEvent)
    (s : ModalState) :
    gestureFold (moves ++ [e]) s = handlePointerMove e (gestureFold moves s) := by
  unfold gestureFold
  rw [List.foldl_append]
  rfl

/-- The fetch continuation never touches the visibility flag. -/
theorem fetchContinuation_isVisible (out : FetchOutcome) (s : ModalState) :
    (fetchContinuation out s).isVisible = s.isVisible := by
  unfold fetchContinuation
  cases parseOutcome out <;> simp [setFailure]

/-- `fetchAllHighlights`' synchronous head never touches visibility. -/
theorem fetchStart_isVisible (cfg : Config) (s : ModalState) :
    ((fetchStart cfg s).1).isVisible = s.isVisible := by
  unfold fetchStart; split <;> rfl

/-- The mount effect never touches visibility. -/
theorem mountEffect_isVisible (cfg : Config) (s : ModalState) :
    ((mountEffect cfg s).1).isVisible = s.isVisible := by
  unfold mountEffect
  split
  · rw [fetchStart_isVisible]
  · rfl

/-- Reselection never touches visibility. -/
theorem refreshHighlight_isVisible (q : ℚ) (s : ModalState) :
    (refreshHighlight q s).isVisible = s.isVisible := by
  unfold refreshHighlight; split <;> rfl

/-- Pointer-down never touches visibility. -/
theorem handlePointerDown_isVisible (e : PointerEvent) (s : ModalState) :
    (handlePointerDown e s).isVisible = s.isVisible := by
  unfold handlePointerDown; split <;> rfl

/-- Pointer-move never touches visibility. -/
theorem handlePointerMove_isVisible (e : PointerEvent) (s : ModalState) :
    (handlePointerMove e s).isVisible = s.isVisible := by
  unfold handlePointerMove; split <;> rfl

/-- A frame boundary never touches visibility. -/
theorem fireFrame_isVisible (s : ModalState) :
    (fireFrame s).isVisible = s.isVisible := by
  unfold fireFrame; split <;> rfl

/-- Every event either keeps visibility or turns it off; none turns it on. -/
theorem processEvent_isVisible (cfg : Config) (s : ModalState) (e : ModalEvent) :
    (processEvent cfg s e).1.isVisible = s.isVisible ∨
    (processEvent cfg s e).1.isVisible = false := by
  cases e with
  | mount => exact Or.inl (mountEffect_isVisible cfg s)
  | fetchResolve out => exact Or.inl (fetchContinuation_isVisible out s)
  | routeChangeStart => exact Or.inr rfl
  | closeClick => exact Or.inr rfl
  | reselectClick q => exact Or.inl (refreshHighlight_isVisible q s)
  | pointerDown e => exact Or.inl (handlePointerDown_isVisible e s)
  | pointerMove e => exact Or.inl (handlePointerMove_isVisible e s)
  | pointerUp => exact Or.inl rfl
  | frameFire => exact Or.inl (fireFrame_isVisible s)

/-- An invisible component stays invisible under any event sequence. -/
theorem runEvents_isVisible_false (cfg : Config) (s : ModalState)
    (evs : List ModalEvent) (h : s.isVisible = false) :
    (runEvents cfg s evs).isVisible = false := by
  induction evs generalizing s with
  | nil => exact h
  | cons e es ih =>
    have hstep : runEvents cfg s (e :: es) =
        runEvents cfg ((processEvent cfg s e).1) es := rfl
    rw [hstep]
    apply ih
    rcases processEvent_isVisible cfg s e with hv | hv
    · rw [hv]; exact h
    · exact hv

/-- The guard of line 189: unmounted, disabled, or invisible renders `null`. -/
theorem render_none_of_guard (cfg : Config) (s : ModalState)
    (h : s.mounted = false ∨ cfg.READWISE_ENABLED = false ∨ s.isVisible = false) :
    render cfg s = none := by
  unfold render
  rw [if_pos h]

/-- The fields `SysInv` talks about. -/
def CoreEq (s t : ModalState) : Prop :=
  t.highlights = s.highlights ∧ t.loading = s.loading ∧ t.error = s.error

theorem handlePointerDown_core (e : PointerEvent) (s : ModalState) :
    CoreEq s (handlePointerDown e s) := by
  unfold handlePointerDown CoreEq; split <;> exact ⟨rfl, rfl, rfl⟩

theorem handlePointerMove_core (e : PointerEvent) (s : ModalState) :
    CoreEq s (handlePointerMove e s) := by
  unfold handlePointerMove CoreEq; split <;> exact ⟨rfl, rfl, rfl⟩

theorem fireFrame_core (s : ModalState) : CoreEq s (fireFrame s) := by
  unfold fireFrame CoreEq; split <;> exact ⟨rfl, rfl, rfl⟩

theorem refreshHighlight_core (q : ℚ) (s : ModalState) :
    CoreEq s (refreshHighlight q s) := by
  unfold refreshHighlight CoreEq; split <;> exact ⟨rfl, rfl, rfl⟩

/-- The lifetime invariant only depends on the core fields. -/
theorem sysInv_of_coreEq (w : SysState) (t : ModalState) (h : SysInv w)
    (hc : CoreEq w.comp t) : SysInv { w with comp := t } := by
  obtain ⟨h1, h2, h3⟩ := h
  obtain ⟨ch, cl, ce⟩ := hc
  refine ⟨?_, ?_, ?_⟩
  · intro hmo
    obtain ⟨a, b⟩ := h1 hmo
    exact ⟨a, by rw [ch]; exact b⟩
  · intro hif
    obtain ⟨a, b⟩ := h2 hif
    exact ⟨by rw [ch]; exact a, by rw [ce]; exact b⟩
  · intro hne
    rw [ch] at hne
    obtain ⟨a, b⟩ := h3 hne
    exact ⟨by rw [cl]; exact a, by rw [ce]; exact b⟩

/-- The mount effect never touches the highlight list. -/
theorem mountEffect_highlights (cfg : Config) (s : ModalState) :
    ((mountEffect cfg s).1).highlights = s.highlights := by
  unfold mountEffect fetchStart
  split
  · split <;> rfl
  · rfl

/-- If the mount effect issued a request, it had cleared the error (line 72). -/
theorem mountEffect_error_of_request (cfg : Config) (s : ModalState)
    (h : (mountEffect cfg s).2.isEmpty = false) :
    ((mountEffect cfg s).1).error = none := by
  unfold mountEffect fetchStart at *
  split at h
  · split at h
    · simp at h
    · split <;> rfl
  · simp at h

/-- One system step preserves the lifetime invariant. -/
theorem sysInv_step (cfg : Config) (w : SysState) (e : ModalEvent)
    (h : SysInv w) : SysInv (sysStep cfg w e) := by
  cases e with
  | mount =>
    cases hmo : w.mountedOnce with
    | true => simpa [sysStep, hmo] using h
    | false =>
      have hred : sysStep cfg w .mount =
          { comp := (mountEffect cfg w.comp).1
            mountedOnce := true
            inFlight := !(mountEffect cfg w.comp).2.isEmpty } := by
        simp [sysStep, hmo]
      rw [hred]
      obtain ⟨hifl, hhl⟩ := h.1 hmo
      refine ⟨?_, ?_, ?_⟩
      · intro hcontra; cases hcontra
      · intro hif
        have hie : (mountEffect cfg w.comp).2.isEmpty = false := by
          simpa using hif
        refine ⟨?_, mountEffect_error_of_request cfg w.comp hie⟩
        rw [mountEffect_highlights]; exact hhl
      · intro hne
        rw [mountEffect_highlights] at hne
        exact absurd hhl hne
  | fetchResolve out =>
    cases hif : w.inFlight with
    | false => simpa [sysStep, hif] using h
    | true =>
      have hred : sysStep cfg w (.fetchResolve out) =
          { comp := fetchContinuation out w.comp
            mountedOnce := w.mountedOnce
            inFlight := false } := by
        simp [sysStep, hif]
      rw [hred]
      obtain ⟨hhl, herr⟩ := h.2.1 hif
      cases hp : parseOutcome out with
      | error m =>
        have hcomp : fetchContinuation out w.comp = setFailure m w.comp := by
          unfold fetchContinuation; rw [hp]
        rw [hcomp]
        refine ⟨?_, ?_, ?_⟩
        · intro _; exact ⟨rfl, by simpa [setFailure] using hhl⟩
        · intro hcontra; cases hcontra
        · intro hne
          exact absurd (by simpa [setFailure] using hhl) hne
      | ok l =>
        have hcomp : fetchContinuation out w.comp =
            { w.comp with highlights := l, currentIndex := 0, loading := false } := by
          unfold fetchContinuation; rw [hp]
        rw [hcomp]
        refine ⟨?_, ?_, ?_⟩
        · intro hmo
          exact absurd (h.1 hmo).1 (by simp [hif])
        · intro hcontra; cases hcontra
        · intro _; exact ⟨rfl, herr⟩
  | routeChangeStart => exact sysInv_of_coreEq w _ h ⟨rfl, rfl, rfl⟩
  | closeClick => exact sysInv_of_coreEq w _ h ⟨rfl, rfl, rfl⟩
  | reselectClick q => exact sysInv_of_coreEq w _ h (refreshHighlight_core q w.comp)
  | pointerDown e => exact sysInv_of_coreEq w _ h (handlePointerDown_core e w.comp)
  | pointerMove e => exact sysInv_of_coreEq w _ h (handlePointerMove_core e w.comp)
  | pointerUp => exact sysInv_of_coreEq w _ h ⟨rfl, rfl, rfl⟩
  | frameFire => exact sysInv_of_coreEq w _ h (fireFrame_core w.comp)

/-- Every state reachable in one component lifetime satisfies the invariant. -/
theorem sysRun_inv (cfg : Config) (evs : List ModalEvent) :
    SysInv (sysRun cfg evs) := by
  have hinit : SysInv sysInit := by
    refine ⟨fun _ => ⟨rfl, rfl⟩, ?_, ?_⟩
    · intro hcontra; cases hcontra
    · intro hne; exact absurd rfl hne
  have hfold : ∀ w, SysInv w → SysInv (evs.foldl (sysStep cfg) w) := by
    induction evs with
    | nil => intro w hw; exact hw
    | cons e es ih => intro w hw; exact ih _ (sysInv_step cfg w e hw)
  exact hfold sysInit hinit

/-- Bounds for the random pick of `refreshHighlight` (lines 125–126). -/
theorem refresh_index_lt (q : ℚ) (s : ModalState) (_h0 : 0 ≤ q) (h1 : q < 1)
    (hne : s.highlights ≠ []) :
    (refreshHighlight q s).currentIndex < s.highlights.length := by
  have hl : 0 < s.highlights.length := List.length_pos.mpr hne
  have hguard : ¬ s.highlights.length = 0 := by omega
  have hcast : (0:ℚ) < (s.highlights.length : ℚ) := by exact_mod_cast hl
  have hq : q * (s.highlights.length : ℚ) < (s.highlights.length : ℚ) := by
    calc q * (s.highlights.length : ℚ) < 1 * (s.highlights.length : ℚ) :=
          mul_lt_mul_of_pos_right h1 hcast
      _ = (s.highlights.length : ℚ) := one_mul _
  have hf : ⌊q * (s.highlights.length : ℚ)⌋ < (s.highlights.length : ℤ) := by
    rw [Int.floor_lt]
    exact_mod_cast hq
  unfold refreshHighlight
  rw [if_neg hguard]
  show (⌊q * (s.highlights.length : ℚ)⌋).toNat < s.highlights.length
  omega

/-- A successful parse yields a non-empty list. -/
theorem parseOutcome_ok_ne_nil (out : FetchOutcome) (l : List HighlightItem)
    (h : parseOutcome out = .ok l) : l ≠ [] := by
  cases out with
  | networkError m => simp [parseOutcome] at h
  | response ok status ct body =>
    cases ok with
    | false => simp [parseOutcome] at h
    | true =>
      cases ct with
      | none => simp [parseOutcome] at h
      | some c =>
        by_cases hc : containsAppJson c = false
        · simp [parseOutcome, hc] at h
        · cases body with
          | error m => simp [parseOutcome, hc] at h
          | ok hs =>
            cases hs with
            | none => simp [parseOutcome, hc] at h
            | some l2 =>
              by_cases hl : l2.length = 0
              · simp [parseOutcome, hc, hl] at h
              · simp [parseOutcome, hc, hl] at h
                subst h
                intro hnil
                rw [hnil] at hl
                simp at hl

/-! ### Claim theorems -/

/-- C1: at an accepted pointer-down (non-mouse pointer, or mouse primary
button) the anchor offset `dragOffset` is set to the pointer position minus
the overlay's current position, and every position update applied during the
gesture — any further burst of moves ending in a move to `e2`, followed by
the frame firing — sets the overlay position to that last pointer position
minus the fixed anchor offset.  The witness instantiates the spec scenario:
pointer-down at (50,50) with overlay at (0,0) yields anchor (50,50), and a
pointer-move to (80,80) yields position (30,30) after the frame fires. -/
theorem drag_anchor_fixed (s : ModalState) (e : PointerEvent)
    (hacc : e.pointerType ≠ "mouse" ∨ e.button = 0) :
    (handlePointerDown e s).isDragging = true ∧
    (handlePointerDown e s).dragOffset =
      ⟨e.clientX - s.position.x, e.clientY - s.position.y⟩ ∧
    ∀ (moves : List PointerEvent) (e2 : PointerEvent),
      (fireFrame (gestureFold (moves ++ [e2]) (handlePointerDown e s))).position =
        ⟨e2.clientX - (e.clientX - s.position.x),
         e2.clientY - (e.clientY - s.position.y)⟩ := by
  have hcond : ¬ (e.pointerType = "mouse" ∧ e.button ≠ 0) := by
    rcases hacc with h | h
    · intro hc; exact h hc.1
    · intro hc; exact hc.2 h
  have hd : handlePointerDown e s =
      { s with
        isDragging := true
        dragOffset := ⟨e.clientX - s.position.x, e.clientY - s.position.y⟩ } := by
    unfold handlePointerDown
    rw [if_neg hcond]
  refine ⟨by rw [hd], by rw [hd], ?_⟩
  intro moves e2
  have hdrag1 : (handlePointerDown e s).isDragging = true := by rw [hd]
  obtain ⟨hd2, hp2, ho2⟩ := gestureFold_core moves _ hdrag1
  rw [gestureFold_append_single, handlePointerMove_of_dragging e2 _ hd2, ho2, hd]
  rfl

/-- C1 witness: the concrete scenario of the spec. -/
theorem drag_anchor_fixed_witness :
    ((⟨"mouse", 0, 50, 50⟩ : PointerEvent).pointerType ≠ "mouse" ∨
      (⟨"mouse", 0, 50, 50⟩ : PointerEvent).button = 0) ∧
    (handlePointerDown ⟨"mouse", 0, 50, 50⟩ initialState).dragOffset = ⟨50, 50⟩ ∧
    (fireFrame (gestureFold ([] ++ [⟨"mouse", 0, 80, 80⟩])
        (handlePointerDown ⟨"mouse", 0, 50, 50⟩ initialState))).position = ⟨30, 30⟩ := by
  have h := drag_anchor_fixed initialState ⟨"mouse", 0, 50, 50⟩ (Or.inr rfl)
  refine ⟨Or.inr rfl, ?_, ?_⟩
  · rw [h.2.1]; decide
  · rw [h.2.2 [] ⟨"mouse", 0, 80, 80⟩]; decide

/-- C2: within one render-frame window (no frame boundary between the moves),
a burst of pointer-move events applies nothing to the overlay position — the
positions derived from the earlier events are never applied, each new
scheduled update replacing the previous pending one — and when the frame
fires, the position applied is the one derived from the last event alone. -/
theorem pointer_move_coalescing (s : ModalState) (moves : List PointerEvent)
    (e : PointerEvent) (hdrag : s.isDragging = true) :
    (gestureFold moves s).position = s.position ∧
    (fireFrame (gestureFold (moves ++ [e]) s)).position =
      ⟨e.clientX - s.dragOffset.x, e.clientY - s.dragOffset.y⟩ := by
  obtain ⟨hd, hp, ho⟩ := gestureFold_core moves s hdrag
  refine ⟨hp, ?_⟩
  rw [gestureFold_append_single, handlePointerMove_of_dragging e _ hd, ho]
  rfl

/-- C2 witness: two moves in one window — the (10,10)-derived position is
never applied, the frame applies only the (80,80)-derived one. -/
theorem pointer_move_coalescing_witness :
    ({ initialState with isDragging := true } : ModalState).isDragging = true ∧
    (gestureFold [⟨"touch", 0, 10, 10⟩]
      { initialState with isDragging := true }).position = ⟨0, 0⟩ ∧
    (fireFrame (gestureFold ([⟨"touch", 0, 10, 10⟩] ++ [⟨"touch", 0, 80, 80⟩])
      { initialState with isDragging := true })).position = ⟨80, 80⟩ := by
  have h := pointer_move_coalescing { initialState with isDragging := true }
    [⟨"touch", 0, 10, 10⟩] ⟨"touch", 0, 80, 80⟩ rfl
  exact ⟨rfl, by rw [h.1]; decide, by rw [h.2]; decide⟩

/-- C3: processing pointer-up (the handler plus the drag effect React runs in
the same run-to-completion response to `setIsDragging(false)`, lines 162–186)
leaves tracking off and the pending frame cancelled, and a frame boundary
arriving afterwards changes nothing at all — the state after `fireFrame` is
identical, so no position update is ever applied after pointer-up. -/
theorem pointer_up_cancels_pending (cfg : Config) (s : ModalState) :
    (processEvent cfg s .pointerUp).1 = dragEffectCleanup (handlePointerUp s) ∧
    (dragEffectCleanup (handlePointerUp s)).isDragging = false ∧
    (dragEffectCleanup (handlePointerUp s)).dragAnimationFrame = none ∧
    fireFrame (dragEffectCleanup (handlePointerUp s)) =
      dragEffectCleanup (handlePointerUp s) :=
  ⟨rfl, rfl, rfl, rfl⟩

/-- C4: over every state reachable in one component lifetime, if the
collection is non-empty (the `Ready` states) then any `reselect` lands the
index inside `[0, length)` (the lower bound holds since the index is a
natural number); and in every non-`Ready` state — still loading, failed, or
an empty collection (idle and loading states have an empty collection by the
lifetime invariant `sysRun_inv`) — `reselect` leaves the whole state
unchanged. -/
theorem reselect_bounds_and_noop (cfg : Config) (evs : List ModalEvent)
    (q : ℚ) (h0 : 0 ≤ q) (h1 : q < 1) :
    ((sysRun cfg evs).comp.highlights ≠ [] →
      (refreshHighlight q (sysRun cfg evs).comp).currentIndex <
        (sysRun cfg evs).comp.highlights.length) ∧
    ((sysRun cfg evs).comp.loading = true ∨ (sysRun cfg evs).comp.error ≠ none ∨
        (sysRun cfg evs).comp.highlights = [] →
      refreshHighlight q (sysRun cfg evs).comp = (sysRun cfg evs).comp) := by
  have hinv := sysRun_inv cfg evs
  constructor
  · intro hne
    exact refresh_index_lt q _ h0 h1 hne
  · intro hcase
    have hempty : (sysRun cfg evs).comp.highlights = [] := by
      rcases hcase with hl | he | hh
      · by_contra hne
        have hready := (hinv.2.2 hne).1
        rw [hready] at hl
        exact absurd hl (by decide)
      · by_contra hne
        exact he (hinv.2.2 hne).2
      · exact hh
    unfold refreshHighlight
    rw [if_pos (by rw [hempty]; rfl)]

/-- C4 witness: after a mount and a successful fetch of two items, a reselect
with random draw 1/2 lands strictly inside the bounds. -/
theorem reselect_bounds_and_noop_witness :
    (0:ℚ) ≤ 1/2 ∧ (1/2:ℚ) < 1 ∧
    (refreshHighlight (1/2)
        (sysRun cfgX [ModalEvent.mount, ModalEvent.fetchResolve goodOut]).comp).currentIndex <
      (sysRun cfgX [ModalEvent.mount, ModalEvent.fetchResolve goodOut]).comp.highlights.length := by
  refine ⟨by norm_num, by norm_num, ?_⟩
  have h := reselect_bounds_and_noop cfgX
    [ModalEvent.mount, ModalEvent.fetchResolve goodOut] (1/2) (by norm_num) (by norm_num)
  exact h.1 (by decide)

/-- C5: with the feature enabled and no usable API key, processing the mount
event sets the missing-credential error message, ends with `loading = false`,
and emits no network request at all. -/
theorem missing_key_no_request (cfg : Config) (s : ModalState)
    (he : cfg.READWISE_ENABLED = true) (hk : keyMissing cfg = true) :
    (processEvent cfg s .mount).1.error = some "未配置 Readwise API Key" ∧
    (processEvent cfg s .mount).1.loading = false ∧
    (processEvent cfg s .mount).2 = [] := by
  simp [processEvent, mountEffect, fetchStart, he, hk]

/-- C5 witness: the enabled, key-less configuration from the spec scenario. -/
theorem missing_key_no_request_witness :
    (⟨true, none⟩ : Config).READWISE_ENABLED = true ∧
    keyMissing ⟨true, none⟩ = true ∧
    ((processEvent ⟨true, none⟩ initialState .mount).1.error =
        some "未配置 Readwise API Key" ∧
      (processEvent ⟨true, none⟩ initialState .mount).1.loading = false ∧
      (processEvent ⟨true, none⟩ initialState .mount).2 = []) :=
  ⟨rfl, rfl, missing_key_no_request ⟨true, none⟩ initialState rfl rfl⟩

/-- C6: a successful response (ok status, JSON content type, parse succeeds)
whose highlight list is empty — or whose `highlights` field is absent — moves
the state to the distinguishing no-items failure message with
`loading = false`, and the stored collection is left exactly as it was, not
overwritten. -/
theorem empty_payload_failure (s : ModalState) :
    fetchContinuation (.response true 200 (some "application/json") (.ok (some []))) s =
      { s with error := some "没有找到任何高亮内容", loading := false } ∧
    fetchContinuation (.response true 200 (some "application/json") (.ok none)) s =
      { s with error := some "没有找到任何高亮内容", loading := false } ∧
    (fetchContinuation (.response true 200 (some "application/json")
        (.ok (some []))) s).highlights = s.highlights :=
  ⟨rfl, rfl, rfl⟩

/-- C7: visibility starts true, is turned off by the user dismiss action and
by the navigation-start signal, and is monotone: from any invisible state no
event sequence whatsoever (navigation, pointer, reselect, fetch resolution,
frame) makes the component visible or render again; and whenever the
component is unmounted, the feature is disabled, or visibility is off, the
render is `none`. -/
theorem visibility_monotone (cfg : Config) (s s2 : ModalState)
    (evs : List ModalEvent) (h : s.isVisible = false)
    (h2 : s2.mounted = false ∨ cfg.READWISE_ENABLED = false ∨
      s2.isVisible = false) :
    initialState.isVisible = true ∧
    (processEvent cfg s .closeClick).1.isVisible = false ∧
    (processEvent cfg s .routeChangeStart).1.isVisible = false ∧
    (runEvents cfg s evs).isVisible = false ∧
    render cfg (runEvents cfg s evs) = none ∧
    render cfg s2 = none := by
  refine ⟨rfl, rfl, rfl, runEvents_isVisible_false cfg s evs h, ?_,
    render_none_of_guard cfg s2 h2⟩
  exact render_none_of_guard cfg _
    (Or.inr (Or.inr (runEvents_isVisible_false cfg s evs h)))

/-- C7 witness: a dismissed state stays invisible and unrendered through a
mount and a pointer event. -/
theorem visibility_monotone_witness :
    ({ initialState with isVisible := false } : ModalState).isVisible = false ∧
    (initialState.mounted = false ∨ cfgX.READWISE_ENABLED = false ∨
      initialState.isVisible = false) ∧
    (runEvents cfgX { initialState with isVisible := false }
      [ModalEvent.mount, ModalEvent.pointerDown ⟨"mouse", 0, 5, 5⟩]).isVisible = false ∧
    render cfgX (runEvents cfgX { initialState with isVisible := false }
      [ModalEvent.mount, ModalEvent.pointerDown ⟨"mouse", 0, 5, 5⟩]) = none := by
  have h := visibility_monotone cfgX { initialState with isVisible := false }
    initialState [ModalEvent.mount, ModalEvent.pointerDown ⟨"mouse", 0, 5, 5⟩]
    rfl (Or.inl rfl)
  exact ⟨rfl, Or.inl rfl, h.2.2.2.1, h.2.2.2.2.1⟩

/-- C8: evaluation of the code at a post-teardown resolution.  The source's
fetch continuation (lines 96–110) performs its state updates without any
liveness check — nothing in `fetchAllHighlights` consults a mounted/cancelled
token — so when the fetch that the mount started (first conjunct: the request
was issued) resolves after teardown (`alive = false`), the continuation still
mutates the state: the highlight list changes from `[]` to the fetched item.
This refutes the claim that none of the continuation's state mutations occur
after teardown. -/
theorem stale_fetch_mutates_after_teardown :
    (mountEffect cfgX initialState).2 = [Effect.networkRequest] ∧
    (resolveFetchAsWritten goodOutA
      { alive := false, state := (mountEffect cfgX initialState).1 }).alive = false ∧
    ((mountEffect cfgX initialState).1).highlights = [] ∧
    (resolveFetchAsWritten goodOutA
      { alive := false, state := (mountEffect cfgX initialState).1 }).state.highlights
      = [itemA] := by
  refine ⟨rfl, rfl, rfl, ?_⟩
  decide

/-- C9: evaluation of the code at a double invocation.  `fetchAllHighlights`
(lines 64–111) consults no in-flight guard: invoked a second time while the
first request is still outstanding (no resolution processed in between), it
issues a second network request and re-runs its state updates instead of
being a no-op.  This refutes the at-most-one-in-flight claim. -/
theorem second_fetch_issues_request :
    (fetchStart cfgX initialState).2 = [Effect.networkRequest] ∧
    (fetchStart cfgX (fetchStart cfgX initialState).1).2 = [Effect.networkRequest] :=
  ⟨rfl, rfl⟩

/-- C10: computing the displayed item is total and safe: whenever the current
index is within the bounds of the highlight list, `highlight` is exactly that
element; otherwise it is `none`; and whatever the overlay renders shows
either exactly `highlight` or nothing — never an out-of-bounds access. -/
theorem highlight_access_safe (cfg : Config) (s : ModalState) (v : RenderView)
    (hv : render cfg s = some v) :
    highlight s = (if h : s.currentIndex < s.highlights.length
      then some (s.highlights.get ⟨s.currentIndex, h⟩) else none) ∧
    (v.shownHighlight = highlight s ∨ v.shownHighlight = none) := by
  constructor
  · by_cases h : s.currentIndex < s.highlights.length
    · rw [dif_pos h]
      exact List.get?_eq_get h
    · rw [dif_neg h]
      exact List.get?_eq_none.mpr (by omega)
  · unfold render at hv
    split at hv
    · cases hv
    · injection hv with hv2
      subst hv2
      by_cases hc : s.loading = false ∧ s.error = none
      · left
        show (if s.loading = false ∧ s.error = none then highlight s else none) =
          highlight s
        rw [if_pos hc]
      · right
        show (if s.loading = false ∧ s.error = none then highlight s else none) = none
        rw [if_neg hc]

/-- C10 witness: a rendering state (mounted, enabled, visible, still loading)
whose index is out of bounds of the empty list: `highlight` is `none`. -/
theorem highlight_access_safe_witness :
    render cfgX { initialState with mounted := true } =
      some ⟨⟨0, 0⟩, false, true, none, none⟩ ∧
    highlight { initialState with mounted := true } = none := by
  have h := highlight_access_safe cfgX { initialState with mounted := true }
    ⟨⟨0, 0⟩, false, true, none, none⟩ rfl
  refine ⟨rfl, ?_⟩
  rw [h.1]
  rw [dif_neg (by decide)]
